import Mathlib

/-!
# kconnect: cluster-identifier translation and AAD authentication

A shallow embedding of

* `pkg/plugins/discovery/aws/get.go` (`GetCluster`, `getClusterName`), and
* `pkg/plugins/identity/azure/aad/aad.go` (`New`, `Name`, `Authenticate`,
  `validateConfig`),

together with the library routines these functions call
(`strings.HasPrefix`, `strings.Split`, `strings.SplitN`, `arn.Parse` of
`aws-sdk-go-v2`, the `required` rule of `go-playground/validator`).

Conventions.

* A Go `string` is a Lean `String`.  Both separators used by the code (`/` and
  `:`) are single ASCII bytes, so splitting a well-formed UTF-8 string on them
  byte-wise and character-wise gives the same pieces.
* A Go `(T, error)` result is an `Except GoError T`; the zero value returned
  next to a non-nil error (`""`, `nil`) is not represented.
* Calls to collaborators whose bodies live outside these two files are
  parameters of the model, and every such call is recorded, in program order,
  in a list of calls returned next to the result.
* Logging (`p.logger.Info`, `p.logger.Infow`) is not modelled.
-/

namespace Kconnect

/-- One entry of a `validator.ValidationErrors` value. -/
structure FieldError where
  Namespace : String
  Field : String
  Tag : String
  deriving DecidableEq, Repr

/-- Go `error` values, as far as the two files build or inspect them. -/
inductive GoError where
  /-- A package-level error variable declared outside the embedded files,
  identified by the name of the variable. -/
  | named (name : String)
  /-- The value of `errors.New(msg)`. -/
  | new (msg : String)
  /-- A `validator.ValidationErrors` value. -/
  | validation (fields : List FieldError)
  /-- The value of `fmt.Errorf(lead + "%w", cause)`, `lead` being the rendered
  text that precedes the `%w` verb. -/
  | wrapped (lead : String) (cause : GoError)
  deriving DecidableEq, Repr

namespace GoError

/-- `errors.Unwrap`. -/
def Unwrap : GoError → Option GoError
  | wrapped _ cause => some cause
  | _ => none

end GoError

namespace fmt

/-- `fmt.Errorf(lead + "%w", err)`. -/
def Errorf (lead : String) (err : GoError) : GoError := GoError.wrapped lead err

end fmt

/-! ## Package `strings` -/

namespace strings

/-- `strings.HasPrefix(s, p)`. -/
def HasPrefix (s p : String) : Bool := p.data.isPrefixOf s.data

/-- `strings.Index(s, sep)` for a one-byte separator, returning the text before
the first occurrence (`s[:m]`) and the text after it (`s[m+len(sep):]`). -/
def cutAt (sep : Char) : List Char → Option (List Char × List Char)
  | [] => none
  | c :: cs =>
    if c = sep then some ([], cs)
    else match cutAt sep cs with
      | none => none
      | some (before, after) => some (c :: before, after)

/-- `strings.Count(s, sep)` for a one-byte separator. -/
def Count (sep : Char) (s : List Char) : Nat := s.count sep

/-- The loop of `strings.genSplit` (with `sepSave = 0`): at most `k` cuts, the
rest of the string being the last piece. -/
def genSplit (sep : Char) : Nat → List Char → List (List Char)
  | 0, s => [s]
  | k + 1, s =>
    match cutAt sep s with
    | none => [s]
    | some (before, after) => before :: genSplit sep k after

/-- `strings.Split(s, sep)` for a one-byte separator: `genSplit(s, sep, 0, -1)`,
where a negative `n` is replaced by `Count(s, sep) + 1`. -/
def Split (s : String) (sep : Char) : List String :=
  (genSplit sep (Count sep s.data + 1 - 1) s.data).map String.mk

/-- `strings.SplitN(s, sep, n)` for a one-byte separator and `n ≥ 0`:
`n = 0` gives `nil`, and `n` is capped at `len(s) + 1`.  The length is counted
in characters here and in bytes in Go; both are at least the number of
separators in `s`, so the cap cuts at the same places. -/
def SplitN (s : String) (sep : Char) (n : Nat) : List String :=
  if n = 0 then []
  else (genSplit sep (min n (s.data.length + 1) - 1) s.data).map String.mk

end strings

/-! ## Package `github.com/aws/aws-sdk-go-v2/aws/arn` -/

namespace arn

def arnDelimiter : Char := ':'
def arnSections : Nat := 6
def arnPrefix : String := "arn:"
def sectionPartition : Nat := 1
def sectionService : Nat := 2
def sectionRegion : Nat := 3
def sectionAccountID : Nat := 4
def sectionResource : Nat := 5
def invalidPrefix : String := "arn: invalid prefix"
def invalidSections : String := "arn: not enough sections"

/-- The type `arn.ARN`. -/
structure ARN where
  Partition : String
  Service : String
  Region : String
  AccountID : String
  Resource : String
  deriving DecidableEq, Repr

/-- `arn.Parse`. -/
def Parse (arn : String) : Except GoError ARN :=
  if !strings.HasPrefix arn arnPrefix then
    .error (.new invalidPrefix)
  else
    let sections := strings.SplitN arn arnDelimiter arnSections
    if sections.length ≠ arnSections then
      .error (.new invalidSections)
    else
      .ok { Partition := sections.getD sectionPartition ""
            Service := sections.getD sectionService ""
            Region := sections.getD sectionRegion ""
            AccountID := sections.getD sectionAccountID ""
            Resource := sections.getD sectionResource "" }

end arn

/-! ## `pkg/plugins/discovery/aws/get.go` -/

namespace aws

def expectedNameParts : Nat := 2

/-- The package variable `ErrUnexpectedClusterFormat`. -/
def ErrUnexpectedClusterFormat : GoError := .named "ErrUnexpectedClusterFormat"

/-- `(*eksClusterProvider).getClusterName`; the receiver is not used. -/
def getClusterName (clusterID : String) : Except GoError String :=
  match arn.Parse clusterID with
  | .error err => .error (fmt.Errorf "parsing cluster id as ARN: " err)
  | .ok clusterARN =>
    let parts := strings.Split clusterARN.Resource '/'
    if parts.length ≠ expectedNameParts then
      .error ErrUnexpectedClusterFormat
    else
      .ok (parts.getD 1 "")

/-- `discovery.GetClusterInput`, with the three fields `GetCluster` reads. -/
structure GetClusterInput (ConfigurationSet Identity : Type) where
  ConfigSet : ConfigurationSet
  Identity : Identity
  ClusterID : String

/-- `discovery.GetClusterOutput`. -/
structure GetClusterOutput (Cluster : Type) where
  Cluster : Cluster
  deriving DecidableEq, Repr

/-- The methods of `eksClusterProvider` that `GetCluster` calls and that are
defined in other files of the package.  `σ` is the state of the receiver,
which both may read and update. -/
structure eksClusterProvider (ConfigurationSet Identity Cluster σ : Type) where
  setup : σ → ConfigurationSet → Identity → Option GoError × σ
  getClusterConfig : σ → String → Except GoError Cluster × σ

/-- The steps of `GetCluster`. -/
inductive Step where
  | setup
  | getClusterName (clusterID : String)
  | getClusterConfig (clusterName : String)
  deriving DecidableEq, Repr

/-- What one call of `GetCluster` does: its result, the steps it ran, in
order, and the receiver state it leaves. -/
structure Run (α σ : Type) where
  result : Except GoError α
  steps : List Step
  state : σ

/-- `(*eksClusterProvider).GetCluster`. -/
def GetCluster {ConfigurationSet Identity Cluster σ : Type}
    (p : eksClusterProvider ConfigurationSet Identity Cluster σ) (s : σ)
    (input : GetClusterInput ConfigurationSet Identity) :
    Run (GetClusterOutput Cluster) σ :=
  match p.setup s input.ConfigSet input.Identity with
  | (some err, s1) =>
    { result := .error (fmt.Errorf "setting up eks provider: " err)
      steps := [.setup]
      state := s1 }
  | (none, s1) =>
    match getClusterName input.ClusterID with
    | .error err =>
      { result := .error (fmt.Errorf
          ("getting cluster name for cluster id " ++ input.ClusterID ++ ": ") err)
        steps := [.setup, .getClusterName input.ClusterID]
        state := s1 }
    | .ok clusterName =>
      match p.getClusterConfig s1 clusterName with
      | (.error err, s2) =>
        { result := .error (fmt.Errorf
            ("getting cluster config for " ++ input.ClusterID ++ ": ") err)
          steps := [.setup, .getClusterName input.ClusterID, .getClusterConfig clusterName]
          state := s2 }
      | (.ok cluster, s2) =>
        { result := .ok { Cluster := cluster }
          steps := [.setup, .getClusterName input.ClusterID, .getClusterConfig clusterName]
          state := s2 }

end aws

/-! ## Package `github.com/go-playground/validator/v10` -/

namespace validator

/-- The `required` rule on a field of kind string: the field fails when it
holds the zero value `""`. -/
def required (structName field value : String) : List FieldError :=
  if value = "" then
    [{ Namespace := structName ++ "." ++ field, Field := field, Tag := "required" }]
  else []

end validator

/-! ## `pkg/plugins/identity/azure/aad/aad.go` -/

namespace aad

def ProviderName : String := "aad"

/-- The package variable `provider.ErrHTTPClientRequired`. -/
def ErrHTTPClientRequired : GoError := .named "provider.ErrHTTPClientRequired"

/-- `provider.PluginCreationInput`, with the three fields `New` reads.
`HTTPClient` is an interface value: `none` is `nil`. -/
structure PluginCreationInput (LoggerT ClientT : Type) where
  Logger : LoggerT
  IsInteractive : Bool
  HTTPClient : Option ClientT

/-- The struct `aadIdentityProvider`. -/
structure aadIdentityProvider (LoggerT ClientT : Type) where
  interactive : Bool
  logger : LoggerT
  httpClient : Option ClientT

/-- `New`. -/
def New {LoggerT ClientT : Type} (input : PluginCreationInput LoggerT ClientT) :
    Except GoError (aadIdentityProvider LoggerT ClientT) :=
  if input.HTTPClient.isNone then
    .error ErrHTTPClientRequired
  else
    .ok { logger := input.Logger
          interactive := input.IsInteractive
          httpClient := input.HTTPClient }

/-- `(*aadIdentityProvider).Name`. -/
def Name {LoggerT ClientT : Type} (_p : aadIdentityProvider LoggerT ClientT) : String :=
  ProviderName

/-- `common.IdentityProviderConfig`, with the two fields `Authenticate` reads. -/
structure IdentityProviderConfig where
  Username : String
  Password : String
  deriving DecidableEq, Repr

/-- The struct `aadConfig`; `identity.AADHost` is a string type. -/
structure aadConfig extends IdentityProviderConfig where
  TenantID : String
  ClientID : String
  AADHost : String
  deriving DecidableEq, Repr

/-- `validate.Struct(cfg)` on an `aadConfig`: the fields are visited in
declaration order, the embedded `IdentityProviderConfig` first.  The tags of
the embedded struct are declared outside this file, so the field errors it
contributes are the parameter `embedded`.  The result is `nil` when no field
fails and the `ValidationErrors` otherwise. -/
def validateStruct (embedded : List FieldError) (cfg : aadConfig) : Option GoError :=
  let errs := embedded
    ++ validator.required "aadConfig" "TenantID" cfg.TenantID
    ++ validator.required "aadConfig" "ClientID" cfg.ClientID
    ++ validator.required "aadConfig" "AADHost" cfg.AADHost
  if errs.isEmpty then none else some (.validation errs)

/-- `(*aadIdentityProvider).validateConfig`. -/
def validateConfig (embedded : List FieldError) (cfg : aadConfig) : Option GoError :=
  match validateStruct embedded cfg with
  | some err => some (fmt.Errorf "validating aad config: " err)
  | none => none

/-- `identity.AuthorityConfig`. -/
structure AuthorityConfig where
  Tenant : String
  Host : String
  AuthorityURI : String
  deriving DecidableEq, Repr

/-- `identity.AuthenticationConfig`; `Endpoints` is `none` until
`Authenticate` assigns the resolved endpoints. -/
structure AuthenticationConfig (EndpointsT : Type) where
  Authority : AuthorityConfig
  ClientID : String
  Username : String
  Password : String
  Endpoints : Option EndpointsT

/-- The value built by `identity.NewActiveDirectoryIdentity`, whose body is
outside this file: it is represented by the five arguments of the call. -/
structure ActiveDirectoryIdentity (ClientT EndpointsT RealmT : Type) where
  authCfg : AuthenticationConfig EndpointsT
  userRealm : RealmT
  idProviderName : String
  httpClient : Option ClientT
  interactiveLoginRequired : Bool

/-- `provid.AuthenticateInput`, with the field `Authenticate` reads. -/
structure AuthenticateInput (ConfigSetT : Type) where
  ConfigSet : ConfigSetT

/-- `provid.AuthenticateOutput`. -/
structure AuthenticateOutput (ClientT EndpointsT RealmT : Type) where
  Identity : ActiveDirectoryIdentity ClientT EndpointsT RealmT

/-- The collaborators of `Authenticate` whose bodies are outside this file.

* `resolveConfig` is the method `p.resolveConfig`: it reads the receiver and
  may update the configuration set in place, so on success it yields the set
  as it then stands.
* `Unmarshall` is `config.Unmarshall` into a fresh `aadConfig`.
* `embeddedViolations` gives the field errors the validator finds in the
  embedded `IdentityProviderConfig`.
* `Resolve` is `identity.NewOAuthEndpointsResolver(client).Resolve`.
* `GetUserRealm` is `identity.NewClient(client).GetUserRealm`.
* `cmdRun n argv` is the outcome of `cmd.Run()` for the `n`-th command
  (counted from zero) started by the call, `argv` being its command line;
  `none` is exit status zero. -/
structure Collaborators (LoggerT ConfigSetT ClientT EndpointsT RealmT : Type) where
  resolveConfig : aadIdentityProvider LoggerT ClientT → ConfigSetT → Except GoError ConfigSetT
  Unmarshall : ConfigSetT → Except GoError aadConfig
  embeddedViolations : aadConfig → List FieldError
  Resolve : Option ClientT → AuthorityConfig → Except GoError EndpointsT
  GetUserRealm : Option ClientT → AuthenticationConfig EndpointsT → Except GoError RealmT
  cmdRun : Nat → List String → Option GoError

/-- The collaborator calls `Authenticate` can make. -/
inductive Call where
  | resolveConfig
  | Unmarshall
  | validateConfig
  | Resolve
  | GetUserRealm
  | cmdRun (argv : List String)
  | NewActiveDirectoryIdentity (interactiveLoginRequired : Bool)
  deriving DecidableEq, Repr

/-- What one call of `Authenticate` does: its result and the collaborator
calls it made, in order. -/
structure Outcome (α : Type) where
  result : Except GoError α
  calls : List Call

/-- The command line of `exec.Command("az", "login", "--username", u, "--password", pw)`. -/
def passwordLogin (cfg : aadConfig) : List String :=
  ["az", "login", "--username", cfg.Username, "--password", cfg.Password]

/-- The command line of `exec.Command("az", "login", "--tenant", t)`. -/
def tenantLogin (cfg : aadConfig) : List String :=
  ["az", "login", "--tenant", cfg.TenantID]

/-- The `identity.AuthorityConfig` literal in `Authenticate`; the URI is
`fmt.Sprintf("https://%s/%s/", cfg.AADHost, cfg.TenantID)`. -/
def newAuthority (cfg : aadConfig) : AuthorityConfig :=
  { Tenant := cfg.TenantID
    Host := cfg.AADHost
    AuthorityURI := "https://" ++ cfg.AADHost ++ "/" ++ cfg.TenantID ++ "/" }

/-- The `identity.AuthenticationConfig` literal in `Authenticate`. -/
def newAuthCfg {EndpointsT : Type} (cfg : aadConfig) : AuthenticationConfig EndpointsT :=
  { Authority := newAuthority cfg
    ClientID := cfg.ClientID
    Username := cfg.Username
    Password := cfg.Password
    Endpoints := none }

/-- The assignment `authCfg.Endpoints = endpoints`. -/
def AuthenticationConfig.setEndpoints {EndpointsT : Type}
    (authCfg : AuthenticationConfig EndpointsT) (endpoints : EndpointsT) :
    AuthenticationConfig EndpointsT :=
  { authCfg with Endpoints := some endpoints }

/-- Whether a recorded call is a run of an external command. -/
def Call.isCmdRun : Call → Bool
  | .cmdRun _ => true
  | _ => false

/-- `(*aadIdentityProvider).Authenticate`. -/
def Authenticate {LoggerT ConfigSetT ClientT EndpointsT RealmT : Type}
    (p : aadIdentityProvider LoggerT ClientT)
    (W : Collaborators LoggerT ConfigSetT ClientT EndpointsT RealmT)
    (input : AuthenticateInput ConfigSetT) :
    Outcome (AuthenticateOutput ClientT EndpointsT RealmT) :=
  match W.resolveConfig p input.ConfigSet with
  | .error err =>
    { result := .error (fmt.Errorf "resolving config: " err)
      calls := [.resolveConfig] }
  | .ok configSet =>
  match W.Unmarshall configSet with
  | .error err =>
    { result := .error (fmt.Errorf "unmarshalling config into use aadconfig: " err)
      calls := [.resolveConfig, .Unmarshall] }
  | .ok cfg =>
  match validateConfig (W.embeddedViolations cfg) cfg with
  | some err =>
    { result := .error err
      calls := [.resolveConfig, .Unmarshall, .validateConfig] }
  | none =>
  let authCfg : AuthenticationConfig EndpointsT := newAuthCfg cfg
  match W.Resolve p.httpClient authCfg.Authority with
  | .error err =>
    { result := .error (fmt.Errorf "getting endpoints: " err)
      calls := [.resolveConfig, .Unmarshall, .validateConfig, .Resolve] }
  | .ok endpoints =>
  let authCfg := authCfg.setEndpoints endpoints
  match W.GetUserRealm p.httpClient authCfg with
  | .error err =>
    { result := .error (fmt.Errorf "getting user realm: " err)
      calls := [.resolveConfig, .Unmarshall, .validateConfig, .Resolve, .GetUserRealm] }
  | .ok userRealm =>
  match W.cmdRun 0 (passwordLogin cfg) with
  | none =>
    { result := .ok { Identity :=
        { authCfg := authCfg, userRealm := userRealm, idProviderName := ProviderName,
          httpClient := p.httpClient, interactiveLoginRequired := false } }
      calls := [.resolveConfig, .Unmarshall, .validateConfig, .Resolve, .GetUserRealm,
        .cmdRun (passwordLogin cfg), .NewActiveDirectoryIdentity false] }
  | some _ =>
    match W.cmdRun 1 (tenantLogin cfg) with
    | some err =>
      { result := .error (fmt.Errorf "azure cli: " err)
        calls := [.resolveConfig, .Unmarshall, .validateConfig, .Resolve, .GetUserRealm,
          .cmdRun (passwordLogin cfg), .cmdRun (tenantLogin cfg)] }
    | none =>
      { result := .ok { Identity :=
          { authCfg := authCfg, userRealm := userRealm, idProviderName := ProviderName,
            httpClient := p.httpClient, interactiveLoginRequired := true } }
        calls := [.resolveConfig, .Unmarshall, .validateConfig, .Resolve, .GetUserRealm,
          .cmdRun (passwordLogin cfg), .cmdRun (tenantLogin cfg),
          .NewActiveDirectoryIdentity true] }

end aad

/-! ## Sample collaborators, used to run the model on concrete inputs -/

namespace Sample

/-- An EKS provider whose setup succeeds and whose lookup answers with the
name it was asked for; the state counts the collaborator calls. -/
def eks : aws.eksClusterProvider Unit Unit String Nat :=
  { setup := fun s _ _ => (none, s + 1)
    getClusterConfig := fun s name => (.ok ("config of " ++ name), s + 1) }

/-- A `GetCluster` input for the given cluster identifier. -/
def eksInput (clusterID : String) : aws.GetClusterInput Unit Unit :=
  { ConfigSet := (), Identity := (), ClusterID := clusterID }

/-- A complete `aadConfig`. -/
def cfg : aad.aadConfig :=
  { Username := "alice", Password := "secret", TenantID := "contoso",
    ClientID := "04b07795-8ddb-461a-bbee-02f9e1bf7b46",
    AADHost := "login.microsoftonline.com" }

/-- The same config with an empty `tenant-id`. -/
def cfgNoTenant : aad.aadConfig := { cfg with TenantID := "" }

/-- The error of a command that exits with status 1. -/
def exitStatus1 : GoError := .new "exit status 1"

/-- Collaborators for which the configuration set is the config itself, the
embedded struct has no violation, endpoint discovery answers `resolve`, realm
discovery succeeds, the first command ends with `first` and every later one
with `second`. -/
def world (resolve : Except GoError String) (first second : Option GoError) :
    aad.Collaborators Unit aad.aadConfig Unit String String :=
  { resolveConfig := fun _ cs => .ok cs
    Unmarshall := fun cs => .ok cs
    embeddedViolations := fun _ => []
    Resolve := fun _ _ => resolve
    GetUserRealm := fun _ _ => .ok "managed"
    cmdRun := fun n _ => if n = 0 then first else second }

/-- A provider as `New` builds it. -/
def provider (interactive : Bool) : aad.aadIdentityProvider Unit Unit :=
  { interactive := interactive, logger := (), httpClient := some () }

end Sample

/-! ## Facts about the `strings` model -/

namespace strings

theorem genSplit_ne_nil (sep : Char) (k : Nat) (s : List Char) : genSplit sep k s ≠ [] := by
  cases k with
  | zero => simp [genSplit]
  | succ k =>
    unfold genSplit
    cases cutAt sep s with
    | none => simp
    | some pr => simp

theorem Split_length_pos (s : String) (sep : Char) : 1 ≤ (Split s sep).length := by
  unfold Split
  rw [List.length_map]
  exact List.length_pos.mpr (genSplit_ne_nil _ _ _)

end strings

/-! ## Identifier translation -/

namespace aws

theorem getClusterName_of_parse (clusterID : String) (a : arn.ARN)
    (h : arn.Parse clusterID = .ok a) :
    getClusterName clusterID =
      if (strings.Split a.Resource '/').length ≠ expectedNameParts then
        .error ErrUnexpectedClusterFormat
      else .ok ((strings.Split a.Resource '/').getD 1 "") := by
  unfold getClusterName
  rw [h]

/-- C1: for every cluster identifier that `arn.Parse` accepts, the resource
segment split on `/` has at least one part; if it has exactly two parts,
`getClusterName` succeeds with the second part; for any other number of parts
it fails with `ErrUnexpectedClusterFormat`; and the three-part resource
`cluster/my-cluster/extra` fails in that way. -/
theorem getClusterName_strict_format (clusterID : String) (a : arn.ARN)
    (h : arn.Parse clusterID = .ok a) :
    1 ≤ (strings.Split a.Resource '/').length ∧
    ((strings.Split a.Resource '/').length = 2 →
      ∃ kind name, strings.Split a.Resource '/' = [kind, name] ∧
        getClusterName clusterID = .ok name) ∧
    ((strings.Split a.Resource '/').length ≠ 2 →
      getClusterName clusterID = .error ErrUnexpectedClusterFormat) ∧
    (a.Resource = "cluster/my-cluster/extra" →
      getClusterName clusterID = .error ErrUnexpectedClusterFormat) ∧
    getClusterName "arn:aws:eks:us-east-1:123456789012:cluster/my-cluster/extra" =
      .error ErrUnexpectedClusterFormat := by
  refine ⟨strings.Split_length_pos _ _, ?_, ?_, ?_, rfl⟩
  · intro h2
    rw [getClusterName_of_parse clusterID a h]
    match hs : strings.Split a.Resource '/', h2 with
    | [kind, name], _ => exact ⟨kind, name, rfl, by simp [expectedNameParts]⟩
  · intro h2
    rw [getClusterName_of_parse clusterID a h]
    simp [expectedNameParts, h2]
  · intro hr
    rw [getClusterName_of_parse clusterID a h, hr]
    rfl

/-- Witness for C1 at `arn:aws:eks:us-east-1:123456789012:cluster/my-cluster`. -/
theorem getClusterName_strict_format_witness :
    arn.Parse "arn:aws:eks:us-east-1:123456789012:cluster/my-cluster" =
      .ok { Partition := "aws", Service := "eks", Region := "us-east-1",
            AccountID := "123456789012", Resource := "cluster/my-cluster" } ∧
    (1 ≤ (strings.Split "cluster/my-cluster" '/').length ∧
    ((strings.Split "cluster/my-cluster" '/').length = 2 →
      ∃ kind name, strings.Split "cluster/my-cluster" '/' = [kind, name] ∧
        getClusterName "arn:aws:eks:us-east-1:123456789012:cluster/my-cluster" = .ok name) ∧
    ((strings.Split "cluster/my-cluster" '/').length ≠ 2 →
      getClusterName "arn:aws:eks:us-east-1:123456789012:cluster/my-cluster" =
        .error ErrUnexpectedClusterFormat) ∧
    (("cluster/my-cluster" : String) = "cluster/my-cluster/extra" →
      getClusterName "arn:aws:eks:us-east-1:123456789012:cluster/my-cluster" =
        .error ErrUnexpectedClusterFormat) ∧
    getClusterName "arn:aws:eks:us-east-1:123456789012:cluster/my-cluster/extra" =
      .error ErrUnexpectedClusterFormat) :=
  ⟨rfl, getClusterName_strict_format
    "arn:aws:eks:us-east-1:123456789012:cluster/my-cluster"
    { Partition := "aws", Service := "eks", Region := "us-east-1",
      AccountID := "123456789012", Resource := "cluster/my-cluster" } rfl⟩

/-- C2, as stated, fails: the identifier
`aws:eks:us-east-1:123456789012:cluster/my-cluster` does not start with `arn:`,
so `arn.Parse` rejects it and `getClusterName` returns the wrapped parse error
instead of `my-cluster`. -/
theorem getClusterName_scenarioA_rejected :
    getClusterName "aws:eks:us-east-1:123456789012:cluster/my-cluster" =
      .error (.wrapped "parsing cluster id as ARN: " (.new "arn: invalid prefix")) ∧
    getClusterName "aws:eks:us-east-1:123456789012:cluster/my-cluster" ≠ .ok "my-cluster" := by
  refine ⟨rfl, ?_⟩
  intro h
  have h2 : getClusterName "aws:eks:us-east-1:123456789012:cluster/my-cluster" =
      .error (.wrapped "parsing cluster id as ARN: " (.new "arn: invalid prefix")) := rfl
  rw [h2] at h
  cases h

/-- C2 (amended): for the ARN
`arn:aws:eks:us-east-1:123456789012:cluster/my-cluster`, `getClusterName`
succeeds and returns `my-cluster`. -/
theorem getClusterName_scenarioA_arn :
    getClusterName "arn:aws:eks:us-east-1:123456789012:cluster/my-cluster" =
      .ok "my-cluster" := rfl

end aws

/-! ## `GetCluster` -/

namespace aws

/-- C9: `GetCluster` runs setup, identifier translation and lookup in that
order and stops at the first failure.  A failing setup gives the wrapped setup
error after the single step `setup`; a failing translation gives the wrapped
translation error with no lookup; a failing lookup gives the wrapped lookup
error; three successes give the output holding the lookup result for the
translated name; and an output is returned only when all three succeeded. -/
theorem GetCluster_sequence {ConfigurationSet Identity Cluster σ : Type}
    (p : eksClusterProvider ConfigurationSet Identity Cluster σ) (s : σ)
    (input : GetClusterInput ConfigurationSet Identity) :
    (∀ err s1, p.setup s input.ConfigSet input.Identity = (some err, s1) →
      (GetCluster p s input).result = .error (.wrapped "setting up eks provider: " err) ∧
      (GetCluster p s input).steps = [.setup]) ∧
    (∀ s1 err, p.setup s input.ConfigSet input.Identity = (none, s1) →
      getClusterName input.ClusterID = .error err →
      (GetCluster p s input).result = .error (.wrapped
        ("getting cluster name for cluster id " ++ input.ClusterID ++ ": ") err) ∧
      (GetCluster p s input).steps = [.setup, .getClusterName input.ClusterID]) ∧
    (∀ s1 name err s2, p.setup s input.ConfigSet input.Identity = (none, s1) →
      getClusterName input.ClusterID = .ok name →
      p.getClusterConfig s1 name = (.error err, s2) →
      (GetCluster p s input).result = .error (.wrapped
        ("getting cluster config for " ++ input.ClusterID ++ ": ") err) ∧
      (GetCluster p s input).steps =
        [.setup, .getClusterName input.ClusterID, .getClusterConfig name]) ∧
    (∀ s1 name cluster s2, p.setup s input.ConfigSet input.Identity = (none, s1) →
      getClusterName input.ClusterID = .ok name →
      p.getClusterConfig s1 name = (.ok cluster, s2) →
      (GetCluster p s input).result = .ok { Cluster := cluster } ∧
      (GetCluster p s input).steps =
        [.setup, .getClusterName input.ClusterID, .getClusterConfig name]) ∧
    (∀ out, (GetCluster p s input).result = .ok out →
      ∃ s1 name s2, p.setup s input.ConfigSet input.Identity = (none, s1) ∧
        getClusterName input.ClusterID = .ok name ∧
        p.getClusterConfig s1 name = (.ok out.Cluster, s2)) := by
  refine ⟨?_, ?_, ?_, ?_, ?_⟩
  · intro err s1 h1
    simp [GetCluster, h1, fmt.Errorf]
  · intro s1 err h1 h2
    simp [GetCluster, h1, h2, fmt.Errorf]
  · intro s1 name err s2 h1 h2 h3
    simp [GetCluster, h1, h2, h3, fmt.Errorf]
  · intro s1 name cluster s2 h1 h2 h3
    simp [GetCluster, h1, h2, h3]
  · intro out h
    rcases h1 : p.setup s input.ConfigSet input.Identity with ⟨_ | e, s1⟩
    · rcases h2 : getClusterName input.ClusterID with e | name
      · simp [GetCluster, h1, h2] at h
      · rcases h3 : p.getClusterConfig s1 name with ⟨e | cluster, s2⟩
        · simp [GetCluster, h1, h2, h3] at h
        · simp [GetCluster, h1, h2, h3] at h
          refine ⟨s1, name, s2, rfl, rfl, ?_⟩
          rw [← h, h3]
    · simp [GetCluster, h1] at h

/-- Witness for C9: the sample provider on a well-formed ARN runs the three
steps and returns the lookup result; on an identifier without the `arn:` lead
it stops after the translation. -/
theorem GetCluster_sequence_witness :
    ((GetCluster Sample.eks 0
        (Sample.eksInput "arn:aws:eks:us-east-1:123456789012:cluster/my-cluster")).result =
        .ok { Cluster := "config of my-cluster" } ∧
      (GetCluster Sample.eks 0
        (Sample.eksInput "arn:aws:eks:us-east-1:123456789012:cluster/my-cluster")).steps =
        [.setup, .getClusterName "arn:aws:eks:us-east-1:123456789012:cluster/my-cluster",
          .getClusterConfig "my-cluster"]) ∧
    ((GetCluster Sample.eks 0 (Sample.eksInput "my-cluster")).result =
        .error (.wrapped ("getting cluster name for cluster id " ++ "my-cluster" ++ ": ")
          (.wrapped "parsing cluster id as ARN: " (.new "arn: invalid prefix"))) ∧
      (GetCluster Sample.eks 0 (Sample.eksInput "my-cluster")).steps =
        [.setup, .getClusterName "my-cluster"]) :=
  ⟨(GetCluster_sequence Sample.eks 0
      (Sample.eksInput "arn:aws:eks:us-east-1:123456789012:cluster/my-cluster")).2.2.2.1
      1 "my-cluster" "config of my-cluster" 2 rfl rfl rfl,
   (GetCluster_sequence Sample.eks 0 (Sample.eksInput "my-cluster")).2.1
      1 (.wrapped "parsing cluster id as ARN: " (.new "arn: invalid prefix")) rfl rfl⟩

/-- C10: the ARN `arn:aws:eks:us-east-1:123456789012:cluster/` has the resource
parts `cluster` and the empty string, `getClusterName` accepts it and returns
the empty name, and `GetCluster`, once setup has succeeded, performs the
lookup with that empty name. -/
theorem getClusterName_accepts_empty_name :
    strings.Split "cluster/" '/' = ["cluster", ""] ∧
    getClusterName "arn:aws:eks:us-east-1:123456789012:cluster/" = .ok "" ∧
    ∀ (ConfigurationSet Identity Cluster σ : Type)
      (p : eksClusterProvider ConfigurationSet Identity Cluster σ) (s s1 : σ)
      (input : GetClusterInput ConfigurationSet Identity),
      input.ClusterID = "arn:aws:eks:us-east-1:123456789012:cluster/" →
      p.setup s input.ConfigSet input.Identity = (none, s1) →
      (GetCluster p s input).steps =
        [.setup, .getClusterName "arn:aws:eks:us-east-1:123456789012:cluster/",
          .getClusterConfig ""] := by
  refine ⟨rfl, rfl, ?_⟩
  intro ConfigurationSet Identity Cluster σ p s s1 input hid h1
  have h2 : getClusterName "arn:aws:eks:us-east-1:123456789012:cluster/" = .ok "" := rfl
  rcases h3 : p.getClusterConfig s1 "" with ⟨e | cluster, s2⟩
  · simp [GetCluster, h1, h2, h3, hid]
  · simp [GetCluster, h1, h2, h3, hid]

/-- Witness for C10 on the sample provider. -/
theorem getClusterName_accepts_empty_name_witness :
    (GetCluster Sample.eks 0
      (Sample.eksInput "arn:aws:eks:us-east-1:123456789012:cluster/")).steps =
      [.setup, .getClusterName "arn:aws:eks:us-east-1:123456789012:cluster/",
        .getClusterConfig ""] :=
  getClusterName_accepts_empty_name.2.2 Unit Unit String Nat Sample.eks 0 1
    (Sample.eksInput "arn:aws:eks:us-east-1:123456789012:cluster/") rfl rfl

end aws

/-! ## `New` and `Authenticate` -/

namespace aad

/-- C7: `New` fails exactly when the input carries no HTTP client.  With a nil
client it returns `ErrHTTPClientRequired`; with a client it returns the
provider holding the input's flag, logger and client, whose name is `aad`. -/
theorem New_requires_http_client {LoggerT ClientT : Type}
    (input : PluginCreationInput LoggerT ClientT) :
    (input.HTTPClient = none → New input = .error ErrHTTPClientRequired) ∧
    (∀ c, input.HTTPClient = some c →
      New input = .ok { interactive := input.IsInteractive, logger := input.Logger,
                        httpClient := input.HTTPClient } ∧
      Name ({ interactive := input.IsInteractive, logger := input.Logger,
              httpClient := input.HTTPClient } : aadIdentityProvider LoggerT ClientT)
        = "aad") ∧
    ((∃ err, New input = .error err) ↔ input.HTTPClient = none) := by
  refine ⟨?_, ?_, ?_⟩
  · intro h
    simp [New, h]
  · intro c h
    simp [New, h, Name, ProviderName]
  · cases h : input.HTTPClient with
    | none => simp [New, h]
    | some c => simp [New, h]

/-- Witness for C7: one input without a client and one with a client. -/
theorem New_requires_http_client_witness :
    New ({ Logger := (), IsInteractive := true, HTTPClient := none } :
      PluginCreationInput Unit Unit) = .error ErrHTTPClientRequired ∧
    New ({ Logger := (), IsInteractive := false, HTTPClient := some () } :
      PluginCreationInput Unit Unit) =
      .ok { interactive := false, logger := (), httpClient := some () } :=
  ⟨(New_requires_http_client
      ({ Logger := (), IsInteractive := true, HTTPClient := none } :
        PluginCreationInput Unit Unit)).1 rfl,
   ((New_requires_http_client
      ({ Logger := (), IsInteractive := false, HTTPClient := some () } :
        PluginCreationInput Unit Unit)).2.1 () rfl).1⟩

/-- C6: when the resolved config has an empty `TenantID`, `Authenticate` fails
with the wrapped validation error, whose field errors contain the `required`
failure of `aadConfig.TenantID`, and the only collaborators called are config
resolution, unmarshalling and validation. -/
theorem Authenticate_missing_tenant {LoggerT ConfigSetT ClientT EndpointsT RealmT : Type}
    (p : aadIdentityProvider LoggerT ClientT)
    (W : Collaborators LoggerT ConfigSetT ClientT EndpointsT RealmT)
    (input : AuthenticateInput ConfigSetT) (configSet : ConfigSetT) (cfg : aadConfig)
    (hResolve : W.resolveConfig p input.ConfigSet = .ok configSet)
    (hUnmarshall : W.Unmarshall configSet = .ok cfg)
    (hTenant : cfg.TenantID = "") :
    (∃ fields,
      (Authenticate p W input).result =
        .error (.wrapped "validating aad config: " (.validation fields)) ∧
      { Namespace := "aadConfig.TenantID", Field := "TenantID", Tag := "required" } ∈ fields) ∧
    (Authenticate p W input).calls = [.resolveConfig, .Unmarshall, .validateConfig] ∧
    Call.Resolve ∉ (Authenticate p W input).calls ∧
    Call.GetUserRealm ∉ (Authenticate p W input).calls ∧
    (∀ argv, Call.cmdRun argv ∉ (Authenticate p W input).calls) := by
  have hv : validateConfig (W.embeddedViolations cfg) cfg =
      some (.wrapped "validating aad config: " (.validation
        (W.embeddedViolations cfg
          ++ validator.required "aadConfig" "TenantID" cfg.TenantID
          ++ validator.required "aadConfig" "ClientID" cfg.ClientID
          ++ validator.required "aadConfig" "AADHost" cfg.AADHost))) := by
    simp [validateConfig, validateStruct, validator.required, hTenant, fmt.Errorf]
  have hcalls : (Authenticate p W input).calls =
      [.resolveConfig, .Unmarshall, .validateConfig] := by
    simp [Authenticate, hResolve, hUnmarshall, hv]
  refine ⟨⟨W.embeddedViolations cfg
      ++ validator.required "aadConfig" "TenantID" cfg.TenantID
      ++ validator.required "aadConfig" "ClientID" cfg.ClientID
      ++ validator.required "aadConfig" "AADHost" cfg.AADHost, ?_, ?_⟩, hcalls, ?_, ?_, ?_⟩
  · simp only [Authenticate, hResolve, hUnmarshall, hv]
  · simp [validator.required, hTenant]
  · simp [hcalls]
  · simp [hcalls]
  · intro argv
    simp [hcalls]

/-- Witness for C6 on the sample config without tenant. -/
theorem Authenticate_missing_tenant_witness :
    (∃ fields,
      (Authenticate (Sample.provider true) (Sample.world (.ok "endpoints") none none)
          { ConfigSet := Sample.cfgNoTenant }).result =
        .error (.wrapped "validating aad config: " (.validation fields)) ∧
      { Namespace := "aadConfig.TenantID", Field := "TenantID", Tag := "required" } ∈ fields) ∧
    (Authenticate (Sample.provider true) (Sample.world (.ok "endpoints") none none)
      { ConfigSet := Sample.cfgNoTenant }).calls =
      [.resolveConfig, .Unmarshall, .validateConfig] :=
  ⟨(Authenticate_missing_tenant (Sample.provider true)
      (Sample.world (.ok "endpoints") none none)
      { ConfigSet := Sample.cfgNoTenant } Sample.cfgNoTenant Sample.cfgNoTenant rfl rfl rfl).1,
   (Authenticate_missing_tenant (Sample.provider true)
      (Sample.world (.ok "endpoints") none none)
      { ConfigSet := Sample.cfgNoTenant } Sample.cfgNoTenant Sample.cfgNoTenant rfl rfl rfl).2.1⟩

/-- C5: when config resolution and validation succeed and endpoint discovery
returns the error `e`, `Authenticate` returns an error whose `Unwrap` is `e`,
and neither realm discovery nor any command run is attempted. -/
theorem Authenticate_endpoint_failure {LoggerT ConfigSetT ClientT EndpointsT RealmT : Type}
    (p : aadIdentityProvider LoggerT ClientT)
    (W : Collaborators LoggerT ConfigSetT ClientT EndpointsT RealmT)
    (input : AuthenticateInput ConfigSetT) (configSet : ConfigSetT) (cfg : aadConfig)
    (e : GoError)
    (hResolve : W.resolveConfig p input.ConfigSet = .ok configSet)
    (hUnmarshall : W.Unmarshall configSet = .ok cfg)
    (hValid : validateConfig (W.embeddedViolations cfg) cfg = none)
    (hEndpoints : W.Resolve p.httpClient (newAuthority cfg) = .error e) :
    (Authenticate p W input).result = .error (.wrapped "getting endpoints: " e) ∧
    (GoError.wrapped "getting endpoints: " e).Unwrap = some e ∧
    (Authenticate p W input).calls =
      [.resolveConfig, .Unmarshall, .validateConfig, .Resolve] ∧
    Call.GetUserRealm ∉ (Authenticate p W input).calls ∧
    (∀ argv, Call.cmdRun argv ∉ (Authenticate p W input).calls) := by
  have hcalls : (Authenticate p W input).calls =
      [.resolveConfig, .Unmarshall, .validateConfig, .Resolve] := by
    simp [Authenticate, hResolve, hUnmarshall, hValid, newAuthCfg, hEndpoints]
  refine ⟨?_, rfl, hcalls, ?_, ?_⟩
  · simp [Authenticate, hResolve, hUnmarshall, hValid, newAuthCfg, hEndpoints, fmt.Errorf]
  · simp [hcalls]
  · intro argv
    simp [hcalls]

/-- Witness for C5: endpoint discovery fails with `connection refused`. -/
theorem Authenticate_endpoint_failure_witness :
    (Authenticate (Sample.provider true)
        (Sample.world (.error (.new "connection refused")) none none)
        { ConfigSet := Sample.cfg }).result =
      .error (.wrapped "getting endpoints: " (.new "connection refused")) ∧
    (Authenticate (Sample.provider true)
        (Sample.world (.error (.new "connection refused")) none none)
        { ConfigSet := Sample.cfg }).calls =
      [.resolveConfig, .Unmarshall, .validateConfig, .Resolve] :=
  ⟨(Authenticate_endpoint_failure (Sample.provider true)
      (Sample.world (.error (.new "connection refused")) none none)
      { ConfigSet := Sample.cfg } Sample.cfg Sample.cfg (.new "connection refused")
      rfl rfl rfl rfl).1,
   (Authenticate_endpoint_failure (Sample.provider true)
      (Sample.world (.error (.new "connection refused")) none none)
      { ConfigSet := Sample.cfg } Sample.cfg Sample.cfg (.new "connection refused")
      rfl rfl rfl rfl).2.2.1⟩

/-- C3, as stated, fails: on a provider created with `IsInteractive = false`,
when the first `az login` run fails and the second succeeds, `Authenticate`
runs `az login --tenant` and returns an Identity instead of an error. -/
theorem Authenticate_noninteractive_runs_tenant_login :
    New ({ Logger := (), IsInteractive := false, HTTPClient := some () } :
      PluginCreationInput Unit Unit) = .ok (Sample.provider false) ∧
    (∃ out,
      (Authenticate (Sample.provider false)
          (Sample.world (.ok "endpoints") (some Sample.exitStatus1) none)
          { ConfigSet := Sample.cfg }).result = .ok out ∧
      out.Identity.interactiveLoginRequired = true) ∧
    (Authenticate (Sample.provider false)
        (Sample.world (.ok "endpoints") (some Sample.exitStatus1) none)
        { ConfigSet := Sample.cfg }).calls =
      [.resolveConfig, .Unmarshall, .validateConfig, .Resolve, .GetUserRealm,
        .cmdRun ["az", "login", "--username", "alice", "--password", "secret"],
        .cmdRun ["az", "login", "--tenant", "contoso"],
        .NewActiveDirectoryIdentity true] :=
  ⟨rfl, ⟨_, rfl, rfl⟩, rfl⟩

/-- C3 (amended): when the steps up to realm discovery succeed and the first
`az login` run fails, `Authenticate` runs `az login --tenant` as its second and
last command, whatever the `interactive` flag of the provider; it returns the
wrapped error of that run if it fails and an Identity flagged
interactive-required if it succeeds. -/
theorem Authenticate_fallback_ignores_interactive
    {LoggerT ConfigSetT ClientT EndpointsT RealmT : Type}
    (p : aadIdentityProvider LoggerT ClientT)
    (W : Collaborators LoggerT ConfigSetT ClientT EndpointsT RealmT)
    (input : AuthenticateInput ConfigSetT) (configSet : ConfigSetT) (cfg : aadConfig)
    (endpoints : EndpointsT) (userRealm : RealmT) (e1 : GoError)
    (hResolve : W.resolveConfig p input.ConfigSet = .ok configSet)
    (hUnmarshall : W.Unmarshall configSet = .ok cfg)
    (hValid : validateConfig (W.embeddedViolations cfg) cfg = none)
    (hEndpoints : W.Resolve p.httpClient (newAuthority cfg) = .ok endpoints)
    (hRealm : W.GetUserRealm p.httpClient ((newAuthCfg cfg).setEndpoints endpoints)
      = .ok userRealm)
    (hFirst : W.cmdRun 0 (passwordLogin cfg) = some e1) :
    (Authenticate p W input).calls.filter Call.isCmdRun =
      [.cmdRun (passwordLogin cfg), .cmdRun (tenantLogin cfg)] ∧
    (∀ e2, W.cmdRun 1 (tenantLogin cfg) = some e2 →
      (Authenticate p W input).result = .error (.wrapped "azure cli: " e2)) ∧
    (W.cmdRun 1 (tenantLogin cfg) = none →
      (Authenticate p W input).result = .ok { Identity :=
        { authCfg := (newAuthCfg cfg).setEndpoints endpoints, userRealm := userRealm,
          idProviderName := "aad", httpClient := p.httpClient,
          interactiveLoginRequired := true } }) := by
  have hE : W.Resolve p.httpClient (newAuthCfg cfg : AuthenticationConfig EndpointsT).Authority
      = .ok endpoints := hEndpoints
  refine ⟨?_, ?_, ?_⟩
  · cases h2 : W.cmdRun 1 (tenantLogin cfg) with
    | none =>
      simp [Authenticate, hResolve, hUnmarshall, hValid, hE, hRealm, hFirst, h2,
        Call.isCmdRun]
    | some e2 =>
      simp [Authenticate, hResolve, hUnmarshall, hValid, hE, hRealm, hFirst, h2,
        Call.isCmdRun]
  · intro e2 h2
    simp [Authenticate, hResolve, hUnmarshall, hValid, hE, hRealm, hFirst, h2, fmt.Errorf]
  · intro h2
    simp [Authenticate, hResolve, hUnmarshall, hValid, hE, hRealm, hFirst, h2, ProviderName]

/-- Witness for C3 (amended): a provider with `interactive = false`, a failing
first run and a succeeding second run. -/
theorem Authenticate_fallback_ignores_interactive_witness :
    (Authenticate (Sample.provider false)
        (Sample.world (.ok "endpoints") (some Sample.exitStatus1) none)
        { ConfigSet := Sample.cfg }).calls.filter Call.isCmdRun =
      [.cmdRun (passwordLogin Sample.cfg), .cmdRun (tenantLogin Sample.cfg)] ∧
    (Authenticate (Sample.provider false)
        (Sample.world (.ok "endpoints") (some Sample.exitStatus1) none)
        { ConfigSet := Sample.cfg }).result = .ok { Identity :=
      { authCfg := (newAuthCfg Sample.cfg).setEndpoints "endpoints", userRealm := "managed",
        idProviderName := "aad", httpClient := some (),
        interactiveLoginRequired := true } } :=
  ⟨(Authenticate_fallback_ignores_interactive (Sample.provider false)
      (Sample.world (.ok "endpoints") (some Sample.exitStatus1) none)
      { ConfigSet := Sample.cfg } Sample.cfg Sample.cfg "endpoints" "managed"
      Sample.exitStatus1 rfl rfl rfl rfl rfl rfl).1,
   (Authenticate_fallback_ignores_interactive (Sample.provider false)
      (Sample.world (.ok "endpoints") (some Sample.exitStatus1) none)
      { ConfigSet := Sample.cfg } Sample.cfg Sample.cfg "endpoints" "managed"
      Sample.exitStatus1 rfl rfl rfl rfl rfl rfl).2.2 rfl⟩

/-- C4: when the steps up to realm discovery succeed and the first `az login`
run succeeds, `Authenticate` returns an Identity built with the flag false,
after one command run; when the first run fails and the second succeeds, it
returns an Identity built with the flag true, after two command runs; and
whenever `Authenticate` returns an output, the flag given to
`NewActiveDirectoryIdentity` is the flag of the returned Identity, false
exactly when the first run succeeded, and true exactly when the first run
failed and the second run succeeded. -/
theorem Authenticate_interactive_flag {LoggerT ConfigSetT ClientT EndpointsT RealmT : Type}
    (p : aadIdentityProvider LoggerT ClientT)
    (W : Collaborators LoggerT ConfigSetT ClientT EndpointsT RealmT)
    (input : AuthenticateInput ConfigSetT) :
    (∀ configSet cfg endpoints userRealm,
      W.resolveConfig p input.ConfigSet = .ok configSet →
      W.Unmarshall configSet = .ok cfg →
      validateConfig (W.embeddedViolations cfg) cfg = none →
      W.Resolve p.httpClient (newAuthority cfg) = .ok endpoints →
      W.GetUserRealm p.httpClient ((newAuthCfg cfg).setEndpoints endpoints) = .ok userRealm →
      W.cmdRun 0 (passwordLogin cfg) = none →
      (Authenticate p W input).result = .ok { Identity :=
        { authCfg := (newAuthCfg cfg).setEndpoints endpoints, userRealm := userRealm,
          idProviderName := "aad", httpClient := p.httpClient,
          interactiveLoginRequired := false } } ∧
      (Authenticate p W input).calls =
        [.resolveConfig, .Unmarshall, .validateConfig, .Resolve, .GetUserRealm,
          .cmdRun (passwordLogin cfg), .NewActiveDirectoryIdentity false]) ∧
    (∀ configSet cfg endpoints userRealm e1,
      W.resolveConfig p input.ConfigSet = .ok configSet →
      W.Unmarshall configSet = .ok cfg →
      validateConfig (W.embeddedViolations cfg) cfg = none →
      W.Resolve p.httpClient (newAuthority cfg) = .ok endpoints →
      W.GetUserRealm p.httpClient ((newAuthCfg cfg).setEndpoints endpoints) = .ok userRealm →
      W.cmdRun 0 (passwordLogin cfg) = some e1 →
      W.cmdRun 1 (tenantLogin cfg) = none →
      (Authenticate p W input).result = .ok { Identity :=
        { authCfg := (newAuthCfg cfg).setEndpoints endpoints, userRealm := userRealm,
          idProviderName := "aad", httpClient := p.httpClient,
          interactiveLoginRequired := true } } ∧
      (Authenticate p W input).calls =
        [.resolveConfig, .Unmarshall, .validateConfig, .Resolve, .GetUserRealm,
          .cmdRun (passwordLogin cfg), .cmdRun (tenantLogin cfg),
          .NewActiveDirectoryIdentity true]) ∧
    (∀ out, (Authenticate p W input).result = .ok out →
      ∃ configSet cfg,
        W.resolveConfig p input.ConfigSet = .ok configSet ∧
        W.Unmarshall configSet = .ok cfg ∧
        Call.NewActiveDirectoryIdentity out.Identity.interactiveLoginRequired
          ∈ (Authenticate p W input).calls ∧
        (out.Identity.interactiveLoginRequired = false ↔
          W.cmdRun 0 (passwordLogin cfg) = none) ∧
        (out.Identity.interactiveLoginRequired = true ↔
          (∃ e1, W.cmdRun 0 (passwordLogin cfg) = some e1) ∧
            W.cmdRun 1 (tenantLogin cfg) = none)) := by
  refine ⟨?_, ?_, ?_⟩
  · intro configSet cfg endpoints userRealm h1 h2 h3 h4 h5 h6
    have hE : W.Resolve p.httpClient
        (newAuthCfg cfg : AuthenticationConfig EndpointsT).Authority = .ok endpoints := h4
    constructor
    · simp [Authenticate, h1, h2, h3, hE, h5, h6, ProviderName]
    · simp [Authenticate, h1, h2, h3, hE, h5, h6]
  · intro configSet cfg endpoints userRealm e1 h1 h2 h3 h4 h5 h6 h7
    have hE : W.Resolve p.httpClient
        (newAuthCfg cfg : AuthenticationConfig EndpointsT).Authority = .ok endpoints := h4
    constructor
    · simp [Authenticate, h1, h2, h3, hE, h5, h6, h7, ProviderName]
    · simp [Authenticate, h1, h2, h3, hE, h5, h6, h7]
  · intro out h
    rcases h1 : W.resolveConfig p input.ConfigSet with e | configSet
    · simp [Authenticate, h1] at h
    rcases h2 : W.Unmarshall configSet with e | cfg
    · simp [Authenticate, h1, h2] at h
    rcases h3 : validateConfig (W.embeddedViolations cfg) cfg with _ | e
    swap
    · simp [Authenticate, h1, h2, h3] at h
    rcases h4 : W.Resolve p.httpClient
        (newAuthCfg cfg : AuthenticationConfig EndpointsT).Authority with e | endpoints
    · simp [Authenticate, h1, h2, h3, h4] at h
    rcases h5 : W.GetUserRealm p.httpClient ((newAuthCfg cfg).setEndpoints endpoints)
      with e | userRealm
    · simp [Authenticate, h1, h2, h3, h4, h5] at h
    refine ⟨configSet, cfg, rfl, h2, ?_⟩
    rcases h6 : W.cmdRun 0 (passwordLogin cfg) with _ | e1
    · simp [Authenticate, h1, h2, h3, h4, h5, h6] at h ⊢
      subst h
      simp
    · rcases h7 : W.cmdRun 1 (tenantLogin cfg) with _ | e2
      · simp [Authenticate, h1, h2, h3, h4, h5, h6, h7] at h ⊢
        subst h
        simp
      · simp [Authenticate, h1, h2, h3, h4, h5, h6, h7] at h

/-- Witness for C4: on the sample collaborators, a succeeding first run gives
an Identity flagged false after one command run, and a failing first run
followed by a succeeding second run gives an Identity flagged true after two
command runs. -/
theorem Authenticate_interactive_flag_witness :
    ((Authenticate (Sample.provider true) (Sample.world (.ok "endpoints") none none)
        { ConfigSet := Sample.cfg }).result = .ok { Identity :=
        { authCfg := (newAuthCfg Sample.cfg).setEndpoints "endpoints", userRealm := "managed",
          idProviderName := "aad", httpClient := some (),
          interactiveLoginRequired := false } } ∧
      (Authenticate (Sample.provider true) (Sample.world (.ok "endpoints") none none)
        { ConfigSet := Sample.cfg }).calls =
        [.resolveConfig, .Unmarshall, .validateConfig, .Resolve, .GetUserRealm,
          .cmdRun (passwordLogin Sample.cfg), .NewActiveDirectoryIdentity false]) ∧
    ((Authenticate (Sample.provider true)
        (Sample.world (.ok "endpoints") (some Sample.exitStatus1) none)
        { ConfigSet := Sample.cfg }).result = .ok { Identity :=
        { authCfg := (newAuthCfg Sample.cfg).setEndpoints "endpoints", userRealm := "managed",
          idProviderName := "aad", httpClient := some (),
          interactiveLoginRequired := true } } ∧
      (Authenticate (Sample.provider true)
        (Sample.world (.ok "endpoints") (some Sample.exitStatus1) none)
        { ConfigSet := Sample.cfg }).calls =
        [.resolveConfig, .Unmarshall, .validateConfig, .Resolve, .GetUserRealm,
          .cmdRun (passwordLogin Sample.cfg), .cmdRun (tenantLogin Sample.cfg),
          .NewActiveDirectoryIdentity true]) :=
  ⟨(Authenticate_interactive_flag (Sample.provider true)
      (Sample.world (.ok "endpoints") none none) { ConfigSet := Sample.cfg }).1
      Sample.cfg Sample.cfg "endpoints" "managed" rfl rfl rfl rfl rfl rfl,
   (Authenticate_interactive_flag (Sample.provider true)
      (Sample.world (.ok "endpoints") (some Sample.exitStatus1) none)
      { ConfigSet := Sample.cfg }).2.1
      Sample.cfg Sample.cfg "endpoints" "managed" Sample.exitStatus1
      rfl rfl rfl rfl rfl rfl rfl⟩

/-- C8: when the steps up to realm discovery succeed and both `az login` runs
fail, `Authenticate` returns an error whose `Unwrap` is the failure of the
second run, `NewActiveDirectoryIdentity` is not called, and exactly two
commands are run. -/
theorem Authenticate_interactive_failure_terminal
    {LoggerT ConfigSetT ClientT EndpointsT RealmT : Type}
    (p : aadIdentityProvider LoggerT ClientT)
    (W : Collaborators LoggerT ConfigSetT ClientT EndpointsT RealmT)
    (input : AuthenticateInput ConfigSetT) (configSet : ConfigSetT) (cfg : aadConfig)
    (endpoints : EndpointsT) (userRealm : RealmT) (e1 e2 : GoError)
    (hResolve : W.resolveConfig p input.ConfigSet = .ok configSet)
    (hUnmarshall : W.Unmarshall configSet = .ok cfg)
    (hValid : validateConfig (W.embeddedViolations cfg) cfg = none)
    (hEndpoints : W.Resolve p.httpClient (newAuthority cfg) = .ok endpoints)
    (hRealm : W.GetUserRealm p.httpClient ((newAuthCfg cfg).setEndpoints endpoints)
      = .ok userRealm)
    (hFirst : W.cmdRun 0 (passwordLogin cfg) = some e1)
    (hSecond : W.cmdRun 1 (tenantLogin cfg) = some e2) :
    (Authenticate p W input).result = .error (.wrapped "azure cli: " e2) ∧
    (GoError.wrapped "azure cli: " e2).Unwrap = some e2 ∧
    (Authenticate p W input).calls =
      [.resolveConfig, .Unmarshall, .validateConfig, .Resolve, .GetUserRealm,
        .cmdRun (passwordLogin cfg), .cmdRun (tenantLogin cfg)] ∧
    (∀ b, Call.NewActiveDirectoryIdentity b ∉ (Authenticate p W input).calls) ∧
    ((Authenticate p W input).calls.filter Call.isCmdRun).length = 2 := by
  have hE : W.Resolve p.httpClient (newAuthCfg cfg : AuthenticationConfig EndpointsT).Authority
      = .ok endpoints := hEndpoints
  have hcalls : (Authenticate p W input).calls =
      [.resolveConfig, .Unmarshall, .validateConfig, .Resolve, .GetUserRealm,
        .cmdRun (passwordLogin cfg), .cmdRun (tenantLogin cfg)] := by
    simp [Authenticate, hResolve, hUnmarshall, hValid, hE, hRealm, hFirst, hSecond]
  refine ⟨?_, rfl, hcalls, ?_, ?_⟩
  · simp [Authenticate, hResolve, hUnmarshall, hValid, hE, hRealm, hFirst, hSecond, fmt.Errorf]
  · intro b
    simp [hcalls]
  · simp [hcalls, Call.isCmdRun]

/-- Witness for C8: both runs exit with status 1. -/
theorem Authenticate_interactive_failure_terminal_witness :
    (Authenticate (Sample.provider true)
        (Sample.world (.ok "endpoints") (some Sample.exitStatus1) (some Sample.exitStatus1))
        { ConfigSet := Sample.cfg }).result =
      .error (.wrapped "azure cli: " Sample.exitStatus1) ∧
    ((Authenticate (Sample.provider true)
        (Sample.world (.ok "endpoints") (some Sample.exitStatus1) (some Sample.exitStatus1))
        { ConfigSet := Sample.cfg }).calls.filter Call.isCmdRun).length = 2 :=
  ⟨(Authenticate_interactive_failure_terminal (Sample.provider true)
      (Sample.world (.ok "endpoints") (some Sample.exitStatus1) (some Sample.exitStatus1))
      { ConfigSet := Sample.cfg } Sample.cfg Sample.cfg "endpoints" "managed"
      Sample.exitStatus1 Sample.exitStatus1 rfl rfl rfl rfl rfl rfl rfl).1,
   (Authenticate_interactive_failure_terminal (Sample.provider true)
      (Sample.world (.ok "endpoints") (some Sample.exitStatus1) (some Sample.exitStatus1))
      { ConfigSet := Sample.cfg } Sample.cfg Sample.cfg "endpoints" "managed"
      Sample.exitStatus1 Sample.exitStatus1 rfl rfl rfl rfl rfl rfl rfl).2.2.2.2⟩

end aad

end Kconnect
